import Mathlib

/-!
Shallow embedding of `flask_datadog.py` (dropkitchen/flask-datadog).

The module wires Flask request hooks to a Datadog statsd client.  We model:
  * the flask `g` request-local store as a `GState` record, and the presence
    or absence of a request context as `Option GState` (`none` = no context;
    in Python, touching `g` outside a context raises `RuntimeError`);
  * configuration dictionaries with `setdefault` semantics as a record of
    `Option` fields (`UserConfig`) and the fully-defaulted result (`Config`);
  * metric emission (calls into the wrapped `DogStatsd` client) as a list of
    `Metric` events;
  * numeric values that may be a Python `int` (after `int(round(...))`) or a
    Python number left unconverted, as `PyNum`;
  * times as rationals (the claims do not depend on float representation).
-/

namespace FlaskDatadog

/-- Python `round` on a real number with no digits argument: round half to
even, returning an integer.  Used to model `int(round(1000 * elapsed))`. -/
def pyRound (q : ℚ) : ℤ :=
  let f := q.floor
  let frac : ℚ := q - (f : ℚ)
  if frac < 1/2 then f
  else if 1/2 < frac then f + 1
  else if f % 2 = 0 then f else f + 1

/-- Python `str(x)` for an optional string, as applied to `request.endpoint`
(`str(None) = "None"`). -/
def pyStr : Option String → String
  | none => "None"
  | some s => s

/-- Python `str.lower()`, character by character (ASCII case mapping
suffices for the claims; endpoints, methods and tag names are ASCII). -/
def pyLower (s : String) : String := ⟨s.data.map Char.toLower⟩

/-- A numeric value crossing into the statsd client: either a Python `int`
(produced by `int(round(...))`) or an unconverted number. -/
inductive PyNum where
  | int : ℤ → PyNum
  | rat : ℚ → PyNum
deriving DecidableEq, Repr

/-- One call into the wrapped `DogStatsd` client.  `tags` is `Option` because
the Python client accepts `tags=None`. -/
inductive Metric where
  | timing (name : String) (value : PyNum) (tags : Option (List String)) (sample_rate : ℚ)
  | histogram (name : String) (value : ℤ) (tags : Option (List String)) (sample_rate : ℚ)
  | increment (name : String) (value : ℚ) (tags : Option (List String)) (sample_rate : ℚ)
  | decrement (name : String) (value : ℚ) (tags : Option (List String)) (sample_rate : ℚ)
  | gauge (name : String) (value : ℚ) (tags : Option (List String)) (sample_rate : ℚ)
deriving DecidableEq, Repr

/-- The tag list carried by an emitted metric (`[]` when `tags=None`). -/
def Metric.tagList : Metric → List String
  | .timing _ _ ts _ => ts.getD []
  | .histogram _ _ ts _ => ts.getD []
  | .increment _ _ ts _ => ts.getD []
  | .decrement _ _ ts _ => ts.getD []
  | .gauge _ _ ts _ => ts.getD []

/-- The flask `g` request-local store: the three attributes this module reads
or writes.  A `none` field is an attribute never set (`hasattr` false,
`g.get` returns its default). -/
structure GState where
  request_start_time : Option ℚ := none
  request_elapsed_time : Option ℚ := none
  request_tags : Option (List String) := none
deriving DecidableEq, Repr

/-- A request context: `none` models "no active request context", where any
access to `g` raises `RuntimeError`. -/
abbrev Ctx := Option GState

/-- The HTTP response as the after-request hook sees it: its status code and
the value of its `content-length` header when one is declared. -/
structure Response where
  status_code : ℕ
  content_length : Option ℤ := none
deriving DecidableEq, Repr

/-- The user-supplied configuration mapping: `none` = key absent, so
`setdefault` will fill it.  `STATSD_NAMESPACE`, `STATSD_TAGS` and
`STATSD_SOCKET_PATH` may also be explicitly set to Python `None`, hence the
nested `Option`. -/
structure UserConfig where
  STATSD_HOST : Option String := none
  STATSD_MAX_BUFFER_SIZE : Option ℕ := none
  STATSD_NAMESPACE : Option (Option String) := none
  STATSD_PORT : Option ℕ := none
  STATSD_TAGS : Option (Option (List String)) := none
  STATSD_USEMS : Option Bool := none
  STATSD_SOCKET_PATH : Option (Option String) := none
  DATADOG_CONFIGURE_MIDDLEWARE : Option Bool := none
  DATADOG_RESPONSE_SIZE_METRIC_NAME : Option String := none
  DATADOG_RESPONSE_METRIC_NAME : Option String := none
  DATADOG_RESPONSE_SAMPLE_RATE : Option ℚ := none
  DATADOG_RESPONSE_AUTO_TAG : Option Bool := none
  DATADOG_RESPONSE_ENDPOINT_TAG_NAME : Option String := none
  DATADOG_RESPONSE_METHOD_TAG_NAME : Option String := none

/-- The configuration after `init_app` and `setup_middleware` have applied
their `setdefault` calls: every key has a value. -/
structure Config where
  STATSD_HOST : String
  STATSD_MAX_BUFFER_SIZE : ℕ
  STATSD_NAMESPACE : Option String
  STATSD_PORT : ℕ
  STATSD_TAGS : Option (List String)
  STATSD_USEMS : Bool
  STATSD_SOCKET_PATH : Option String
  DATADOG_CONFIGURE_MIDDLEWARE : Bool
  DATADOG_RESPONSE_SIZE_METRIC_NAME : String
  DATADOG_RESPONSE_METRIC_NAME : String
  DATADOG_RESPONSE_SAMPLE_RATE : ℚ
  DATADOG_RESPONSE_AUTO_TAG : Bool
  DATADOG_RESPONSE_ENDPOINT_TAG_NAME : String
  DATADOG_RESPONSE_METHOD_TAG_NAME : String
deriving DecidableEq, Repr

/-- Embeds `StatsD.init_app` lines 110-116 followed by `setup_middleware` lines
170-176 (which `init_app` always calls): each `config.setdefault(key, d)`
keeps the user's value when the key is present and fills `d` otherwise. -/
def applyDefaults (c : UserConfig) : Config where
  STATSD_HOST := c.STATSD_HOST.getD "localhost"
  STATSD_MAX_BUFFER_SIZE := c.STATSD_MAX_BUFFER_SIZE.getD 50
  STATSD_NAMESPACE := c.STATSD_NAMESPACE.getD none
  STATSD_PORT := c.STATSD_PORT.getD 8125
  STATSD_TAGS := c.STATSD_TAGS.getD none
  STATSD_USEMS := c.STATSD_USEMS.getD false
  STATSD_SOCKET_PATH := c.STATSD_SOCKET_PATH.getD none
  DATADOG_CONFIGURE_MIDDLEWARE := c.DATADOG_CONFIGURE_MIDDLEWARE.getD true
  DATADOG_RESPONSE_SIZE_METRIC_NAME := c.DATADOG_RESPONSE_SIZE_METRIC_NAME.getD "flask.response.size"
  DATADOG_RESPONSE_METRIC_NAME := c.DATADOG_RESPONSE_METRIC_NAME.getD "flask.response.time"
  DATADOG_RESPONSE_SAMPLE_RATE := c.DATADOG_RESPONSE_SAMPLE_RATE.getD 1
  DATADOG_RESPONSE_AUTO_TAG := c.DATADOG_RESPONSE_AUTO_TAG.getD true
  DATADOG_RESPONSE_ENDPOINT_TAG_NAME := c.DATADOG_RESPONSE_ENDPOINT_TAG_NAME.getD "endpoint"
  DATADOG_RESPONSE_METHOD_TAG_NAME := c.DATADOG_RESPONSE_METHOD_TAG_NAME.getD "method"

/-- Embeds `StatsD.get_request_tags`: `g.get('request_tags', [])`, with the
`RuntimeError` raised outside a request context caught and turned into `[]`. -/
def get_request_tags (ctx : Ctx) : List String :=
  match ctx with
  | none => []
  | some gs => gs.request_tags.getD []

/-- Embeds `StatsD.add_request_tags`: reads the current list via
`get_request_tags`, then assigns `g.request_tags = current_tags + tags`;
outside a request context the assignment raises `RuntimeError`, which is
caught and `[]` returned with no state change.  Returns the new context and
the method's return value. -/
def add_request_tags (ctx : Ctx) (tags : List String) : Ctx × List String :=
  match ctx with
  | none => (none, [])
  | some gs =>
    let newTags := gs.request_tags.getD [] ++ tags
    (some { gs with request_tags := some newTags }, newTags)

/-- Embeds `StatsD.before_request`: records `g.request_start_time = time.monotonic()`
and `g.request_tags = []`, then, when `DATADOG_RESPONSE_AUTO_TAG`, seeds
`"{endpoint_tag_name}:{str(request.endpoint).lower()}"` and
`"{method_tag_name}:{request.method.lower()}"` via `add_request_tags`. -/
def before_request (cfg : Config) (now : ℚ) (endpoint : Option String)
    (method : String) (gs : GState) : GState :=
  let gs₁ := { gs with request_start_time := some now, request_tags := some [] }
  if cfg.DATADOG_RESPONSE_AUTO_TAG then
    ((add_request_tags (some gs₁)
        [cfg.DATADOG_RESPONSE_ENDPOINT_TAG_NAME ++ ":" ++ pyLower (pyStr endpoint),
         cfg.DATADOG_RESPONSE_METHOD_TAG_NAME ++ ":" ++ pyLower method]).1).getD gs₁
  else gs₁

/-- Lines 213-221 of `StatsD.after_request`:
`elapsed = g.get('request_elapsed_time'); if not elapsed: elapsed =
time.time() - g.request_start_time; if self.use_ms: elapsed =
int(round(1000 * elapsed))`.  Python truthiness: `not elapsed` is true when
the stored value is `None` or zero.  `self.use_ms` resolves through
`StatsD.__getattr__` to the wrapped client's `use_ms`, i.e. `STATSD_USEMS`. -/
def computeElapsed (useMs : Bool) (now start : ℚ) (pre : Option ℚ) : PyNum :=
  let elapsed : ℚ :=
    match pre with
    | some e => if e = 0 then now - start else e
    | none => now - start
  if useMs then PyNum.int (pyRound (1000 * elapsed)) else PyNum.rat elapsed

/-- Result of the after-request hook: the updated `g` store, the returned
response, and the metrics emitted into the wrapped client. -/
structure AfterResult where
  g : GState
  response : Response
  emitted : List Metric
deriving DecidableEq, Repr

/-- Embeds `StatsD.after_request`: returns the response unchanged with no metrics if
`g` has no `request_start_time`; otherwise computes the elapsed value,
appends `"status_code:%d"` when auto-tagging, emits one timing metric, and
one histogram metric when the response declares a `content-length`. -/
def after_request (cfg : Config) (now : ℚ) (gs : GState) (resp : Response) :
    AfterResult :=
  match gs.request_start_time with
  | none => ⟨gs, resp, []⟩
  | some start =>
    let elapsed := computeElapsed cfg.STATSD_USEMS now start gs.request_elapsed_time
    let gs₁ :=
      if cfg.DATADOG_RESPONSE_AUTO_TAG then
        ((add_request_tags (some gs) ["status_code:" ++ toString resp.status_code]).1).getD gs
      else gs
    let tags := get_request_tags (some gs₁)
    let rate := cfg.DATADOG_RESPONSE_SAMPLE_RATE
    let sizeMetrics :=
      match resp.content_length with
      | some n => [Metric.histogram cfg.DATADOG_RESPONSE_SIZE_METRIC_NAME n (some tags) rate]
      | none => []
    ⟨gs₁, resp,
      Metric.timing cfg.DATADOG_RESPONSE_METRIC_NAME elapsed (some tags) rate :: sizeMetrics⟩

/-- Embeds `StatsD._setdefault_tags`: when the caller supplied no `tags` keyword,
fill it with `get_request_tags()`. -/
def setdefault_tags (ctx : Ctx) (tags : Option (List String)) : List String :=
  tags.getD (get_request_tags ctx)

/-- The state of a `TimerWrapper` / `_TimedContextManagerDecorator` after
construction: whether a (truthy) statsd client is attached, the metric name,
the tags (possibly `None`), the sample rate, and the `use_ms` argument
(`None` when not given). -/
structure TimerWrapper where
  statsd : Bool
  metric : String
  tags : Option (List String)
  sample_rate : ℚ
  use_ms : Option Bool
deriving DecidableEq, Repr

/-- Embeds `StatsD.timer`: when the client `is_enabled`, defaults the `tags` keyword
to the current request's tags, then builds a `TimerWrapper` around
`self.statsd` (present exactly when the client was initialized). -/
def timer (is_enabled : Bool) (ctx : Ctx) (metric : String)
    (tags : Option (List String)) (sample_rate : ℚ) (use_ms : Option Bool) :
    TimerWrapper :=
  let tags' := if is_enabled then some (setdefault_tags ctx tags) else tags
  { statsd := is_enabled, metric := metric, tags := tags',
    sample_rate := sample_rate, use_ms := use_ms }

/-- Embeds `_TimedContextManagerDecorator._send`, run on exit (or `stop`) of a timer
entered (or `start`ed) at time `start`:
`elapsed = time.monotonic() - start; use_ms = self.use_ms if self.use_ms is
not None else True; elapsed = int(round(1000 * elapsed)) if use_ms else
elapsed`, then exactly one `statsd.timing(...)` call when a client is
attached (otherwise only a debug log). -/
def TimerWrapper.send (t : TimerWrapper) (start now : ℚ) : List Metric :=
  let elapsed₀ := now - start
  let useMs := t.use_ms.getD true
  let elapsed : PyNum :=
    if useMs then PyNum.int (pyRound (1000 * elapsed₀)) else PyNum.rat elapsed₀
  if t.statsd then [Metric.timing t.metric elapsed t.tags t.sample_rate] else []

/-- Embeds `StatsD.incr`: gated on `is_enabled`; when enabled, auto-fills tags and
delegates to `statsd.increment`.  When disabled the body is skipped and the
method returns `None` having emitted nothing. -/
def incr (is_enabled : Bool) (ctx : Ctx) (metric : String) (value : ℚ)
    (tags : Option (List String)) (sample_rate : ℚ) : List Metric :=
  if is_enabled then
    [Metric.increment metric value (some (setdefault_tags ctx tags)) sample_rate]
  else []

/-- Embeds `StatsD.decr`: gated on `is_enabled`, delegating to `statsd.decrement`. -/
def decr (is_enabled : Bool) (ctx : Ctx) (metric : String) (value : ℚ)
    (tags : Option (List String)) (sample_rate : ℚ) : List Metric :=
  if is_enabled then
    [Metric.decrement metric value (some (setdefault_tags ctx tags)) sample_rate]
  else []

/-- Embeds `StatsD.gauge`: gated on `is_enabled`, delegating to `statsd.gauge`. -/
def gauge (is_enabled : Bool) (ctx : Ctx) (metric : String) (value : ℚ)
    (tags : Option (List String)) (sample_rate : ℚ) : List Metric :=
  if is_enabled then
    [Metric.gauge metric value (some (setdefault_tags ctx tags)) sample_rate]
  else []

/-- A wrapped client (the `DogStatsd` instance, or the `datadog.api` module)
seen through `hasattr`/`getattr`: the set of attribute names it has. -/
structure WrappedClient where
  attrs : List String
deriving DecidableEq, Repr

/-- Outcome of a `__getattr__` call: the attribute fetched from the wrapped
client, or an `AttributeError` with the given message. -/
inductive Lookup where
  | fromWrapped (name : String)
  | attrError (msg : String)
deriving DecidableEq, Repr

/-- Embeds `StatsD.__getattr__`: `if self.statsd and hasattr(self.statsd, name)`
forward to the wrapped client, else raise
`AttributeError("'StatsD' has has attribute '{name}'")` (message as in the
source, typo included). -/
def StatsD_getattr (statsd : Option WrappedClient) (name : String) : Lookup :=
  if (match statsd with | some c => decide (name ∈ c.attrs) | none => false) then
    Lookup.fromWrapped name
  else
    Lookup.attrError ("'StatsD' has has attribute '" ++ name ++ "'")

/-- Embeds `API.__getattr__`: `if dogapi and hasattr(dogapi, name)` — the `dogapi`
module object is always truthy — forward to `datadog.api`, else raise
`AttributeError("'API' has no attribute '{name}'")`. -/
def API_getattr (api : WrappedClient) (name : String) : Lookup :=
  if name ∈ api.attrs then Lookup.fromWrapped name
  else Lookup.attrError ("'API' has no attribute '" ++ name ++ "'")

/-! ## Claims -/

/-- C3: outside of any active request context, `get_request_tags()` returns an
empty list and does not raise, and `add_request_tags(tags)` returns an empty
list and leaves no state changed (the `RuntimeError` from touching `g` is
caught in both).  In the embedding, the absence of a raise is structural:
both operations are total and the no-context branch produces `(none, [])`. -/
theorem C3_no_context_soft_fail (tags : List String) :
    get_request_tags none = [] ∧ add_request_tags none tags = (none, []) :=
  ⟨rfl, rfl⟩

/-- C4: when `g` holds no `request_start_time`, the after-request hook
returns the very response it was given, leaves `g` unchanged, and emits no
timing and no size metric. -/
theorem C4_no_start_time_noop (cfg : Config) (now : ℚ) (gs : GState)
    (resp : Response) (h : gs.request_start_time = none) :
    after_request cfg now gs resp = ⟨gs, resp, []⟩ := by
  unfold after_request
  rw [h]

/-- Witness for C4 at a concrete input. -/
theorem C4_witness :
    (⟨none, none, none⟩ : GState).request_start_time = none ∧
    after_request (applyDefaults {}) 5 ⟨none, none, none⟩ ⟨200, some 512⟩ =
      ⟨⟨none, none, none⟩, ⟨200, some 512⟩, []⟩ :=
  ⟨rfl, C4_no_start_time_noop (applyDefaults {}) 5 ⟨none, none, none⟩ ⟨200, some 512⟩ rfl⟩

/-- C5 counterexample: with an empty configuration mapping, the defaulted
response metric names are `"flask.response.time"` and
`"flask.response.size"` (lines 171-172), not `"app.response.time"` and
`"app.response.size"` as the claim states. -/
theorem C5_counterexample :
    (applyDefaults {}).DATADOG_RESPONSE_METRIC_NAME = "flask.response.time" ∧
    (applyDefaults {}).DATADOG_RESPONSE_METRIC_NAME ≠ "app.response.time" ∧
    (applyDefaults {}).DATADOG_RESPONSE_SIZE_METRIC_NAME = "flask.response.size" ∧
    (applyDefaults {}).DATADOG_RESPONSE_SIZE_METRIC_NAME ≠ "app.response.size" := by
  refine ⟨rfl, ?_, rfl, ?_⟩ <;> decide

/-- C5 (amended): configuring with an empty configuration mapping yields
host="localhost", port=8125, namespace=none, max-buffer-size=50,
default-tags=none, use-milliseconds=false, socket-path=none,
middleware-enabled=true, response-metric-name="flask.response.time",
response-size-metric-name="flask.response.size", sample-rate=1,
auto-tag=true, endpoint-tag-name="endpoint", method-tag-name="method". -/
theorem C5_defaults :
    applyDefaults {} =
      { STATSD_HOST := "localhost", STATSD_MAX_BUFFER_SIZE := 50,
        STATSD_NAMESPACE := none, STATSD_PORT := 8125, STATSD_TAGS := none,
        STATSD_USEMS := false, STATSD_SOCKET_PATH := none,
        DATADOG_CONFIGURE_MIDDLEWARE := true,
        DATADOG_RESPONSE_SIZE_METRIC_NAME := "flask.response.size",
        DATADOG_RESPONSE_METRIC_NAME := "flask.response.time",
        DATADOG_RESPONSE_SAMPLE_RATE := 1, DATADOG_RESPONSE_AUTO_TAG := true,
        DATADOG_RESPONSE_ENDPOINT_TAG_NAME := "endpoint",
        DATADOG_RESPONSE_METHOD_TAG_NAME := "method" } := rfl

/-- C6: within an active request, `add_request_tags` appends the given tags
to the end of the current list without deduplication, both in its return
value and in the stored state; in particular two calls of
`add_request_tags(["a:b"])` on a fresh request yield a list holding
`"a:b"` twice. -/
theorem C6_append_semantics (gs : GState) (tags : List String) :
    (add_request_tags (some gs) tags).2 = get_request_tags (some gs) ++ tags ∧
    get_request_tags (add_request_tags (some gs) tags).1 =
      get_request_tags (some gs) ++ tags ∧
    (add_request_tags
        ((add_request_tags (some ⟨none, none, some []⟩) ["a:b"]).1)
        ["a:b"]).2.count "a:b" = 2 :=
  ⟨rfl, rfl, by decide⟩

/-- C9: a timer obtained from `timer(...)` on an initialized client, entered
at `start` and exited at `now` (equivalently `start`ed/`stop`ped), emits
exactly one timing metric for the elapsed duration, as
`int(round(1000 * elapsed))` milliseconds unless `use_ms` was explicitly
`False` (then unconverted), and its tags default to the current request's
tag list when the caller supplied none. -/
theorem C9_timer_send (ctx : Ctx) (metric : String)
    (tagsArg : Option (List String)) (rate : ℚ) (useMs : Option Bool)
    (start now : ℚ) :
    (timer true ctx metric tagsArg rate useMs).send start now =
      [Metric.timing metric
        (if useMs = some false then PyNum.rat (now - start)
         else PyNum.int (pyRound (1000 * (now - start))))
        (some (tagsArg.getD (get_request_tags ctx))) rate] := by
  cases useMs with
  | none => rfl
  | some b => cases b <;> rfl

/-- C10: before `init_app` has run, `is_enabled` is false, so `incr`, `decr`
and `gauge` skip their bodies: nothing is emitted, the method falls through
returning `None`, and (structurally, in this total model) nothing raises,
regardless of arguments. -/
theorem C10_disabled_noop (ctx : Ctx) (metric : String) (value : ℚ)
    (tags : Option (List String)) (rate : ℚ) :
    incr false ctx metric value tags rate = [] ∧
    decr false ctx metric value tags rate = [] ∧
    gauge false ctx metric value tags rate = [] :=
  ⟨rfl, rfl, rfl⟩

/-- C1 counterexample: a pre-computed elapsed value IS present in `g`
(`request_elapsed_time = some 0`), yet because line 215 tests Python
truthiness (`if not elapsed:`) rather than presence, the hook discards it
and emits `now - start_time = 17 - 10 = 7`, not the stored `0`. -/
theorem C1_counterexample :
    (⟨some 10, some 0, some []⟩ : GState).request_elapsed_time = some 0 ∧
    (after_request (applyDefaults {}) 17 ⟨some 10, some 0, some []⟩
        ⟨200, none⟩).emitted =
      [Metric.timing "flask.response.time" (PyNum.rat 7)
        (some ["status_code:200"]) 1] := by
  refine ⟨rfl, ?_⟩
  norm_num [after_request, computeElapsed, applyDefaults, add_request_tags,
    get_request_tags]
  decide

/-- C1 (amended): the after-request hook prefers a pre-computed elapsed value
from request-scoped storage whenever one is present AND nonzero (truthy);
when it is absent or zero it computes `now - start_time`; either way the
result is converted to milliseconds via `int(round(1000 * elapsed))` exactly
when the milliseconds option (`STATSD_USEMS`) is configured. -/
theorem C1_elapsed_preference (cfg : Config) (now start : ℚ) (gs : GState)
    (resp : Response) (hstart : gs.request_start_time = some start) :
    (∀ e, gs.request_elapsed_time = some e → e ≠ 0 →
      (after_request cfg now gs resp).emitted.head? =
        some (Metric.timing cfg.DATADOG_RESPONSE_METRIC_NAME
          (if cfg.STATSD_USEMS then PyNum.int (pyRound (1000 * e))
           else PyNum.rat e)
          (some (get_request_tags (some (after_request cfg now gs resp).g)))
          cfg.DATADOG_RESPONSE_SAMPLE_RATE)) ∧
    ((gs.request_elapsed_time = none ∨ gs.request_elapsed_time = some 0) →
      (after_request cfg now gs resp).emitted.head? =
        some (Metric.timing cfg.DATADOG_RESPONSE_METRIC_NAME
          (if cfg.STATSD_USEMS then PyNum.int (pyRound (1000 * (now - start)))
           else PyNum.rat (now - start))
          (some (get_request_tags (some (after_request cfg now gs resp).g)))
          cfg.DATADOG_RESPONSE_SAMPLE_RATE)) := by
  unfold after_request
  rw [hstart]
  constructor
  · intro e he hne
    simp [computeElapsed, he, hne]
  · rintro (hp | hp) <;> simp [computeElapsed, hp]

/-- Witness for C1 (amended): both branches exercised at concrete inputs —
a truthy stored elapsed of 3 is preferred; an absent one falls back to
`now - start = 17 - 10 = 7`. -/
theorem C1_witness :
    ((after_request (applyDefaults {}) 17 ⟨some 10, some 3, some []⟩
        ⟨200, none⟩).emitted.head? =
      some (Metric.timing "flask.response.time" (PyNum.rat 3)
        (some (get_request_tags
          (some (after_request (applyDefaults {}) 17 ⟨some 10, some 3, some []⟩
            ⟨200, none⟩).g))) 1)) ∧
    ((after_request (applyDefaults {}) 17 ⟨some 10, none, some []⟩
        ⟨200, none⟩).emitted.head? =
      some (Metric.timing "flask.response.time" (PyNum.rat 7)
        (some (get_request_tags
          (some (after_request (applyDefaults {}) 17 ⟨some 10, none, some []⟩
            ⟨200, none⟩).g))) 1)) := by
  constructor
  · exact (C1_elapsed_preference (applyDefaults {}) 17 10
      ⟨some 10, some 3, some []⟩ ⟨200, none⟩ rfl).1 3 rfl (by norm_num)
  · have h := (C1_elapsed_preference (applyDefaults {}) 17 10
      ⟨some 10, none, some []⟩ ⟨200, none⟩ rfl).2 (Or.inl rfl)
    norm_num [applyDefaults] at h
    exact h

/-- C7: with a start time recorded, the hook emits the timing metric and,
exactly when the response declares a `content-length`, one histogram metric
carrying that byte count, with the same tag list and the same sample rate as
the timing metric; with no `content-length` header no size metric is
emitted. -/
theorem C7_size_metric (cfg : Config) (now : ℚ) (gs : GState)
    (resp : Response) (start : ℚ) (hstart : gs.request_start_time = some start) :
    ∃ v tl, (after_request cfg now gs resp).emitted =
      Metric.timing cfg.DATADOG_RESPONSE_METRIC_NAME v tl
        cfg.DATADOG_RESPONSE_SAMPLE_RATE ::
      (match resp.content_length with
       | some n => [Metric.histogram cfg.DATADOG_RESPONSE_SIZE_METRIC_NAME n
           tl cfg.DATADOG_RESPONSE_SAMPLE_RATE]
       | none => []) := by
  unfold after_request
  rw [hstart]
  exact ⟨_, _, rfl⟩

/-- Witness for C7: `content-length: 512` produces a histogram metric with
value 512, sharing the timing metric's tags and sample rate; and the
header-less case emits only the timing metric. -/
theorem C7_witness :
    (∃ v tl,
      (after_request (applyDefaults {}) 5 ⟨some 2, none, some []⟩
          ⟨200, some 512⟩).emitted =
        Metric.timing "flask.response.time" v tl 1 ::
        [Metric.histogram "flask.response.size" 512 tl 1]) ∧
    (∃ v tl,
      (after_request (applyDefaults {}) 5 ⟨some 2, none, some []⟩
          ⟨200, none⟩).emitted =
        [Metric.timing "flask.response.time" v tl 1]) := by
  constructor
  · exact C7_size_metric (applyDefaults {}) 5 ⟨some 2, none, some []⟩
      ⟨200, some 512⟩ 2 rfl
  · exact C7_size_metric (applyDefaults {}) 5 ⟨some 2, none, some []⟩
      ⟨200, none⟩ 2 rfl

/-- C8: for an attribute name not explicitly defined on the adapter, the
lookup forwards to the wrapped client when that client has the name, and
otherwise raises an `AttributeError` whose message names the adapter type
(`StatsD` resp. `API`) and the requested attribute name; this holds for both
`StatsD.__getattr__` and `API.__getattr__`. -/
theorem C8_getattr_forwarding (c api : WrappedClient) (name : String) :
    (name ∈ c.attrs → StatsD_getattr (some c) name = Lookup.fromWrapped name) ∧
    (name ∉ c.attrs →
      ∃ msg, StatsD_getattr (some c) name = Lookup.attrError msg ∧
        (∃ a b, msg = a ++ "StatsD" ++ b) ∧ (∃ a b, msg = a ++ name ++ b)) ∧
    (name ∈ api.attrs → API_getattr api name = Lookup.fromWrapped name) ∧
    (name ∉ api.attrs →
      ∃ msg, API_getattr api name = Lookup.attrError msg ∧
        (∃ a b, msg = a ++ "API" ++ b) ∧ (∃ a b, msg = a ++ name ++ b)) := by
  refine ⟨fun h => by simp [StatsD_getattr, h],
          fun h => ⟨_, by simp [StatsD_getattr, h],
            ⟨"'", "' has has attribute '" ++ (name ++ "'"), ?_⟩,
            ⟨"'StatsD' has has attribute '", "'", rfl⟩⟩,
          fun h => by simp [API_getattr, h],
          fun h => ⟨_, by simp [API_getattr, h],
            ⟨"'", "' has no attribute '" ++ (name ++ "'"), ?_⟩,
            ⟨"'API' has no attribute '", "'", rfl⟩⟩⟩
  · apply String.ext
    simp [String.data_append]
  · apply String.ext
    simp [String.data_append]

/-- Witness for C8: a present attribute is forwarded; a missing one yields an
error message naming the adapter type and the attribute, for both adapters. -/
theorem C8_witness :
    (StatsD_getattr (some ⟨["timing"]⟩) "timing" = Lookup.fromWrapped "timing") ∧
    (∃ msg, StatsD_getattr (some ⟨["timing"]⟩) "shout" = Lookup.attrError msg ∧
      (∃ a b, msg = a ++ "StatsD" ++ b) ∧ (∃ a b, msg = a ++ "shout" ++ b)) ∧
    (API_getattr ⟨["Event"]⟩ "Event" = Lookup.fromWrapped "Event") ∧
    (∃ msg, API_getattr ⟨["Event"]⟩ "shout" = Lookup.attrError msg ∧
      (∃ a b, msg = a ++ "API" ++ b) ∧ (∃ a b, msg = a ++ "shout" ++ b)) :=
  ⟨(C8_getattr_forwarding ⟨["timing"]⟩ ⟨["Event"]⟩ "timing").1 (by decide),
   (C8_getattr_forwarding ⟨["timing"]⟩ ⟨["Event"]⟩ "shout").2.1 (by decide),
   (C8_getattr_forwarding ⟨["timing"]⟩ ⟨["Event"]⟩ "Event").2.2.1 (by decide),
   (C8_getattr_forwarding ⟨["timing"]⟩ ⟨["Event"]⟩ "shout").2.2.2 (by decide)⟩

/-- C2: with auto-tagging enabled, for a request that runs the before-hook,
then has arbitrary further tags added (none equal to the three seeded tags),
then runs the after-hook, every emitted metric — in particular the
response-timing metric — carries `{endpoint_tag_name}:{lowercased endpoint}`,
`{method_tag_name}:{lowercased method}` and `status_code:<status>` exactly
once each. -/
theorem C2_auto_tags_exactly_once (cfg : Config)
    (hauto : cfg.DATADOG_RESPONSE_AUTO_TAG = true)
    (now₁ now₂ : ℚ) (endpoint : Option String) (method : String)
    (gs₀ : GState) (userTags : List String) (resp : Response) :
    let eTag := cfg.DATADOG_RESPONSE_ENDPOINT_TAG_NAME ++ ":" ++ pyLower (pyStr endpoint)
    let mTag := cfg.DATADOG_RESPONSE_METHOD_TAG_NAME ++ ":" ++ pyLower method
    let sTag := "status_code:" ++ toString resp.status_code
    eTag ≠ mTag → eTag ≠ sTag → mTag ≠ sTag →
    (∀ t ∈ userTags, t ≠ eTag ∧ t ≠ mTag ∧ t ≠ sTag) →
    let gs₁ := before_request cfg now₁ endpoint method gs₀
    let gs₂ := ((add_request_tags (some gs₁) userTags).1).getD gs₁
    let r := after_request cfg now₂ gs₂ resp
    r.emitted ≠ [] ∧
    ∀ m ∈ r.emitted, m.tagList.count eTag = 1 ∧ m.tagList.count mTag = 1 ∧
      m.tagList.count sTag = 1 := by
  intro eTag mTag sTag hem hes hms huser gs₁ gs₂ r
  have hue : userTags.count eTag = 0 :=
    List.count_eq_zero.mpr (fun h => (huser _ h).1 rfl)
  have hum : userTags.count mTag = 0 :=
    List.count_eq_zero.mpr (fun h => (huser _ h).2.1 rfl)
  have hus : userTags.count sTag = 0 :=
    List.count_eq_zero.mpr (fun h => (huser _ h).2.2 rfl)
  have hgs₁ : gs₁ =
      { gs₀ with
        request_start_time := some now₁
        request_tags := some [eTag, mTag] } := by
    simp [gs₁, before_request, hauto, add_request_tags]
  have hgs₂ : gs₂ =
      { gs₀ with
        request_start_time := some now₁
        request_tags := some ([eTag, mTag] ++ userTags) } := by
    simp [gs₂, hgs₁, add_request_tags]
  have hr : r = after_request cfg now₂ gs₂ resp := rfl
  have htl : ∀ m ∈ r.emitted,
      m.tagList = [eTag, mTag] ++ userTags ++ [sTag] := by
    intro m hm
    rw [hr, hgs₂] at hm
    unfold after_request at hm
    rcases hcl : resp.content_length with _ | n <;>
        simp [hauto, add_request_tags, get_request_tags, hcl] at hm
    · simp [hm, Metric.tagList]
    · rcases hm with hm | hm <;> simp [hm, Metric.tagList]
  have hne : r.emitted ≠ [] := by
    rw [hr, hgs₂]
    unfold after_request
    simp
  refine ⟨hne, fun m hm => ?_⟩
  rw [htl m hm]
  simp [List.count_append, List.count_cons, hue, hum, hus,
    Ne.symm hem, hes, hms, hem, Ne.symm hes, Ne.symm hms]

/-- Witness for C2: default configuration, endpoint `Index`, method `GET`,
one user tag `custom:1`, status 200 — every emitted metric carries
`endpoint:index`, `method:get` and `status_code:200` exactly once. -/
theorem C2_witness :
    let gs₁ := before_request (applyDefaults {}) 1 (some "Index") "GET"
      ⟨none, none, none⟩
    let gs₂ := ((add_request_tags (some gs₁) ["custom:1"]).1).getD gs₁
    let r := after_request (applyDefaults {}) 2 gs₂ ⟨200, some 512⟩
    r.emitted ≠ [] ∧
    ∀ m ∈ r.emitted, m.tagList.count "endpoint:index" = 1 ∧
      m.tagList.count "method:get" = 1 ∧
      m.tagList.count "status_code:200" = 1 := by
  have h := C2_auto_tags_exactly_once (applyDefaults {}) rfl 1 2 (some "Index")
    "GET" ⟨none, none, none⟩ ["custom:1"] ⟨200, some 512⟩ (by decide)
    (by decide) (by decide) (by decide)
  exact h

end FlaskDatadog
